import Mathlib

/-!
Verification development for the peek validation service
(packages/validation-service), a location-gated community validator.

The Rust sources are shallowly embedded:
* geographic coordinates are rationals (the `f64` values occurring in the
  geohash bisection are dyadic and exactly representable, so the rational
  model agrees with the source on every representable input);
* relay I/O is modelled by a `RelayView` oracle that fixes, for the
  duration of one request, the answer of every fetch the handler can issue
  (a fetch either fails or returns the at-most-one matching event);
* published moderation events (kinds 9000/9001/9002/9007) are collected in
  a list in publication order.  The best-effort kind-30078 discovery-map
  event that `create_group` additionally publishes is not tracked in that
  list.
-/

namespace Peek

/-! ## Exact coordinate arithmetic

Latitudes and longitudes are `f64` in the source.  Every number the
geohash bisection manipulates — the interval bounds, their midpoints, and
the doubled error radii — is a dyadic rational of small height, computed
from ±90/±180 by exact halving, so `f64` arithmetic incurs no rounding
there; an exact fraction type therefore reproduces the source bit for
bit on every representable input.  `Frac` is such a type: a numerator
with a positive denominator, compared by cross-multiplication.  (Mathlib's
`ℚ` is not used because its arithmetic is `@[irreducible]`, which blocks
kernel evaluation on concrete inputs.) -/

/-- An exact rational coordinate: `num / den` with `den > 0`. -/
structure Frac where
  num : Int
  den : Int
  den_pos : 0 < den

instance : Repr Frac := ⟨fun a _ => repr (a.num, a.den)⟩

/-- Embed an integer. -/
def Frac.ofInt (n : Int) : Frac := ⟨n, 1, Int.zero_lt_one⟩

/-- Exact addition. -/
def Frac.add (a b : Frac) : Frac :=
  ⟨a.num * b.den + b.num * a.den, a.den * b.den, Int.mul_pos a.den_pos b.den_pos⟩

/-- Exact subtraction. -/
def Frac.sub (a b : Frac) : Frac :=
  ⟨a.num * b.den - b.num * a.den, a.den * b.den, Int.mul_pos a.den_pos b.den_pos⟩

/-- Exact multiplication. -/
def Frac.mul (a b : Frac) : Frac :=
  ⟨a.num * b.num, a.den * b.den, Int.mul_pos a.den_pos b.den_pos⟩

/-- Exact division by two (`/ 2f64` in the source, always exact there). -/
def Frac.half (a : Frac) : Frac :=
  ⟨a.num, 2 * a.den, Int.mul_pos (by decide) a.den_pos⟩

/-- Strict order, by cross-multiplication with positive denominators. -/
def Frac.blt (a b : Frac) : Bool :=
  decide (a.num * b.den < b.num * a.den)

/-- Absolute value (`f64::abs`). -/
def Frac.abs (a : Frac) : Frac :=
  ⟨|a.num|, a.den, a.den_pos⟩

/-! ## Geohash (model of the `geohash` crate used by the service)

`encode`, `decode_bbox`, `neighbor` and `neighbors` mirror the geohash
crate functions imported by `handlers/nostr_validation.rs`. -/

/-- The geohash base-32 alphabet (`BASE32_CODES` in the crate). -/
def base32Codes : List Char :=
  ['0','1','2','3','4','5','6','7','8','9','b','c','d','e','f','g',
   'h','j','k','m','n','p','q','r','s','t','u','v','w','x','y','z']

/-- A longitude/latitude bounding box during bisection. -/
structure BBox where
  minLon : Frac
  maxLon : Frac
  minLat : Frac
  maxLat : Frac
  deriving Repr

/-- The whole-world box the crate starts encoding from. -/
def worldBBox : BBox :=
  ⟨Frac.ofInt (-180), Frac.ofInt 180, Frac.ofInt (-90), Frac.ofInt 90⟩

/-- One five-bit group of the crate's encoding loop: consume `n` bisection
steps, alternating longitude/latitude (`isLon` tells which axis is next),
accumulating the bit pattern in `acc` exactly as
`hash_value = (hash_value << 1) + bit`; `c.x > mid` is `mid.blt x`. -/
def encChar (x y : Frac) : Nat → Bool → BBox → Nat → Nat × Bool × BBox
  | 0, isLon, bb, acc => (acc, isLon, bb)
  | n + 1, isLon, bb, acc =>
    if isLon then
      let mid := (bb.maxLon.add bb.minLon).half
      if mid.blt x then
        encChar x y n false { bb with minLon := mid } (2 * acc + 1)
      else
        encChar x y n false { bb with maxLon := mid } (2 * acc)
    else
      let mid := (bb.maxLat.add bb.minLat).half
      if mid.blt y then
        encChar x y n true { bb with minLat := mid } (2 * acc + 1)
      else
        encChar x y n true { bb with maxLat := mid } (2 * acc)

/-- The crate's outer encoding loop: emit one base-32 character per
five-bit group until `len` characters are produced. -/
def encLoop (x y : Frac) : Nat → Bool → BBox → List Char
  | 0, _, _ => []
  | n + 1, isLon, bb =>
    let r := encChar x y 5 isLon bb 0
    base32Codes.getD r.1 '?' :: encLoop x y n r.2.1 r.2.2

/-- Model of `geohash::encode(Coord {x, y}, len)`: `none` models the
`InvalidCoordinateRange` error for out-of-range coordinates. -/
def encode (x y : Frac) (len : Nat) : Option String :=
  if x.blt (Frac.ofInt (-180)) || (Frac.ofInt 180).blt x ||
      y.blt (Frac.ofInt (-90)) || (Frac.ofInt 90).blt y then none
  else some ⟨encLoop x y len true worldBBox⟩

/-- Model of `hash_value_of_char`: position of a character in the base-32 alphabet,
`none` for the crate's `InvalidHashCharacter` error. -/
def hashValueOfChar (c : Char) : Option Nat :=
  base32Codes.indexOf? c

/-- One bit of the crate's decoding loop: shrink the box towards the half
selected by `bit`, on the axis selected by `isLon`. -/
def decBit (isLon : Bool) (bit : Bool) (bb : BBox) : BBox :=
  if isLon then
    let mid := (bb.maxLon.add bb.minLon).half
    if bit then { bb with minLon := mid } else { bb with maxLon := mid }
  else
    let mid := (bb.maxLat.add bb.minLat).half
    if bit then { bb with minLat := mid } else { bb with maxLat := mid }

/-- Decode the five bits of one character, most significant first
(`(hash_value >> (4 - bs)) & 1` in the crate). -/
def decChar (hv : Nat) (isLon : Bool) (bb : BBox) : BBox × Bool :=
  let b0 := decBit isLon (hv.testBit 4) bb
  let b1 := decBit (!isLon) (hv.testBit 3) b0
  let b2 := decBit isLon (hv.testBit 2) b1
  let b3 := decBit (!isLon) (hv.testBit 1) b2
  let b4 := decBit isLon (hv.testBit 0) b3
  (b4, !isLon)

/-- Model of `decode_bbox`: fold the decoding loop over the characters of the hash;
`none` on the first invalid character. -/
def decodeBBoxAux : List Char → Bool → BBox → Option BBox
  | [], _, bb => some bb
  | c :: cs, isLon, bb =>
    match hashValueOfChar c with
    | none => none
    | some hv =>
      let r := decChar hv isLon bb
      decodeBBoxAux cs r.2 r.1

/-- Model of `geohash::decode_bbox(hash_str)`. -/
def decodeBBox (s : String) : Option BBox :=
  decodeBBoxAux s.data true worldBBox

/-- Model of `geohash::decode(hash_str)`: centre of the bounding box together with
the half-width (`lon_err`) and half-height (`lat_err`). -/
def decode (s : String) : Option (Frac × Frac × Frac × Frac) :=
  match decodeBBox s with
  | none => none
  | some bb =>
    some ((bb.minLon.add bb.maxLon).half, (bb.minLat.add bb.maxLat).half,
          (bb.maxLon.sub bb.minLon).half, (bb.maxLat.sub bb.minLat).half)

/-- Model of `geohash::neighbor(hash_str, direction)` with direction deltas
`(dlat, dlng)`: re-encode the centre displaced by twice the error
(`coord.x + 2f64 * lon_err.abs() * dlng` and likewise for latitude). -/
def neighborCell (s : String) (dlat dlng : Int) : Option String :=
  match decode s with
  | none => none
  | some r =>
    encode (r.1.add (((Frac.ofInt 2).mul r.2.2.1.abs).mul (Frac.ofInt dlng)))
      (r.2.1.add (((Frac.ofInt 2).mul r.2.2.2.abs).mul (Frac.ofInt dlat)))
      s.length

/-- The crate's `Neighbors` record. -/
structure NeighborSet where
  n : String
  ne : String
  e : String
  se : String
  s : String
  sw : String
  w : String
  nw : String
  deriving Repr, DecidableEq

/-- Model of `geohash::neighbors(hash_str)`: all eight adjacent cells, failing if
any single one fails. -/
def neighbors (g : String) : Option NeighborSet :=
  match neighborCell g 1 0, neighborCell g 1 1, neighborCell g 0 1,
        neighborCell g (-1) 1, neighborCell g (-1) 0, neighborCell g (-1) (-1),
        neighborCell g 0 (-1), neighborCell g 1 (-1) with
  | some cn, some cne, some ce, some cse, some cs, some csw, some cw, some cnw =>
    some ⟨cn, cne, ce, cse, cs, csw, cw, cnw⟩
  | _, _, _, _, _, _, _, _ => none

/-- The eight neighbour cells as a list (empty when `neighbors` fails);
used only to state claims, not by the embedded code. -/
def neighborList (g : String) : List String :=
  match neighbors g with
  | none => []
  | some ns => [ns.n, ns.ne, ns.e, ns.se, ns.s, ns.sw, ns.w, ns.nw]

/-- Model of `validate_geohash_location` from `handlers/nostr_validation.rs`:
require an 8-character community geohash, encode the user's point at
precision 8, and accept the same cell or any of the eight neighbours. -/
def validate_geohash_location (userLat userLon : Frac) (communityGeohash : String) : Bool :=
  if communityGeohash.length ≠ 8 then false
  else
    match encode userLon userLat 8 with
    | none => false
    | some userGeohash =>
      if userGeohash = communityGeohash then true
      else
        match neighbors communityGeohash with
        | none => false
        | some nb =>
          userGeohash = nb.n || userGeohash = nb.ne || userGeohash = nb.e ||
          userGeohash = nb.se || userGeohash = nb.s || userGeohash = nb.sw ||
          userGeohash = nb.w || userGeohash = nb.nw

/-! ## Strings: Rust `str::contains` on literal patterns -/

/-- Does `needle` occur as a contiguous run of `hay`?  Models Rust's
`hay.contains(needle)` for string patterns. -/
def strContainsAux (needle : List Char) : List Char → Bool
  | [] => needle.isEmpty
  | c :: rest => needle.isPrefixOf (c :: rest) || strContainsAux needle rest

/-- Rust `hay.contains(needle)`. -/
def strContains (hay needle : String) : Bool :=
  strContainsAux needle.data hay.data

/-! ## UUIDs

Model of `uuid::Uuid::parse_str` followed by `Uuid::to_string()`
normalisation, covering the canonical hyphenated form (8-4-4-4-12 hex
groups) and the simple 32-hex form; `to_string` renders lowercase
hyphenated. -/

/-- Is `c` an ASCII hexadecimal digit? -/
def isHexDigitChar (c : Char) : Bool :=
  c.isDigit || ('a' ≤ c && c ≤ 'f') || ('A' ≤ c && c ≤ 'F')

/-- Insert the four hyphens of the canonical UUID rendering. -/
def hyphenate (l : List Char) : List Char :=
  l.take 8 ++ '-' :: (l.drop 8).take 4 ++ '-' :: (l.drop 12).take 4 ++
    '-' :: (l.drop 16).take 4 ++ '-' :: l.drop 20

/-- Model of `Uuid::parse_str(s)` followed by `to_string()`: the canonical
lowercase hyphenated rendering, or `none` when `s` is not a UUID. -/
def parseUuid (s : String) : Option String :=
  let cs := s.data
  if cs.length == 36 &&
      (List.range 36).all (fun i =>
        if i == 8 || i == 13 || i == 18 || i == 23 then cs.getD i ' ' == '-'
        else isHexDigitChar (cs.getD i ' ')) then
    some ⟨cs.map Char.toLower⟩
  else if cs.length == 32 && cs.all isHexDigitChar then
    some ⟨hyphenate (cs.map Char.toLower)⟩
  else none

/-! ## Relay data model

A stored or published Nostr event, reduced to what the embedded code
reads: kind, tags (ordered lists of strings) and creation time. -/

instance {ε α : Type} [DecidableEq ε] [DecidableEq α] : DecidableEq (Except ε α) :=
  fun x y =>
    match x, y with
    | .error a, .error b =>
      if h : a = b then isTrue (h ▸ rfl) else isFalse (fun hc => h (Except.error.inj hc))
    | .error _, .ok _ => isFalse (fun hc => Except.noConfusion hc)
    | .ok _, .error _ => isFalse (fun hc => Except.noConfusion hc)
    | .ok a, .ok b =>
      if h : a = b then isTrue (h ▸ rfl) else isFalse (fun hc => h (Except.ok.inj hc))

/-- A Nostr event as the service consumes and produces it. -/
structure NEvent where
  kind : Nat
  tags : List (List String)
  created_at : Nat
  deriving Repr, DecidableEq

/-- Model of `event.tags.identifier()`: content of the first `d` tag. -/
def identifier (ev : NEvent) : Option String :=
  (ev.tags.filterMap (fun t => if t.head? == some "d" then t[1]? else none)).head?

/-- Answers of the relay for the duration of one request: the kind-39000
lookup by `i = peek:uuid:<U>` external id, and the kind-39000 / kind-39002
lookups by `d` identifier, each either failing (`Except.error`) or
returning the at-most-one matching event. -/
structure RelayView where
  uuidQuery : Except Unit (Option NEvent)
  metaQuery : String → Except Unit (Option NEvent)
  membersQuery : String → Except Unit (Option NEvent)

/-- Model of `GroupMetadata` from `services/relay.rs` (`member_count` is a `u32`
tag count in the source; tag counts stay far below `2^32`). -/
structure GroupMetadata where
  name : String
  picture : Option String
  about : Option String
  rules : Option (List String)
  member_count : Nat
  is_public : Bool
  is_open : Bool
  created_at : Nat
  geohash : Option String
  display_geohash : Option String
  deriving Repr, DecidableEq

/-- Accumulator of `get_group_metadata`'s tag-parsing loop. -/
structure TagParseState where
  name : String := ""
  picture : Option String := none
  about : Option String := none
  is_public : Bool := false
  is_open : Bool := false
  geohash : Option String := none
  display_geohash : Option String := none
  deriving Repr, DecidableEq

/-- One iteration of the tag-parsing loop of `get_group_metadata`: `g`
accepted only at length 8, `dg` only at length 9, `name`/`about`/`picture`
taken verbatim, visibility markers toggled, anything else ignored. -/
def applyTag (st : TagParseState) (t : List String) : TagParseState :=
  match t.head? with
  | none => st
  | some k =>
    if k = "g" then
      match t[1]? with
      | some content => if content.length = 8 then { st with geohash := some content } else st
      | none => st
    else if k = "name" then
      match t[1]? with
      | some content => { st with name := content }
      | none => st
    else if k = "about" then { st with about := t[1]? }
    else if k = "picture" then { st with picture := t[1]? }
    else if k = "dg" then
      match t[1]? with
      | some content => if content.length = 9 then { st with display_geohash := some content } else st
      | none => st
    else if k = "public" then { st with is_public := true }
    else if k = "private" then { st with is_public := false }
    else if k = "open" then { st with is_open := true }
    else if k = "closed" then { st with is_open := false }
    else st

/-- Number of `p` tags of a kind-39002 members event. -/
def countPTags (tags : List (List String)) : Nat :=
  (tags.filter (fun t => t.head? == some "p")).length

/-- Model of `RelayService::get_group_member_count`: count `p` tags of the
kind-39002 event with `d = group_id`; 0 when no such event exists; the
fetch error is propagated. -/
def get_group_member_count (rv : RelayView) (group_id : String) : Except Unit Nat :=
  match rv.membersQuery group_id with
  | .error e => .error e
  | .ok none => .ok 0
  | .ok (some ev) => .ok (countPTags ev.tags)

/-- Errors of `RelayService` relevant here. -/
inductive RelayErr where
  | fetchFailed : RelayErr
  | groupNotFound : String → RelayErr
  deriving Repr, DecidableEq

/-- Model of `RelayService::get_group_metadata`: fetch the kind-39000 event with
`d = group_id`, parse its tags, and attach the member count from the
kind-39002 event (`unwrap_or(0)` on failure). -/
def get_group_metadata (rv : RelayView) (group_id : String) : Except RelayErr GroupMetadata :=
  match rv.metaQuery group_id with
  | .error _ => .error .fetchFailed
  | .ok none => .error (.groupNotFound group_id)
  | .ok (some ev) =>
    let st := ev.tags.foldl applyTag {}
    let member_count := (get_group_member_count rv group_id).toOption.getD 0
    .ok ⟨st.name, st.picture, st.about, none, member_count, st.is_public, st.is_open,
         ev.created_at, st.geohash, st.display_geohash⟩

/-- Model of `RelayService::find_group_by_uuid`: the in-memory cache first, then
the kind-39000 query by `i = peek:uuid:<U>`, reading the `d` identifier
of the match; the fetch error is propagated. -/
def find_group_by_uuid (cache : Option String) (rv : RelayView) : Except Unit (Option String) :=
  match cache with
  | some group_id => .ok (some group_id)
  | none =>
    match rv.uuidQuery with
    | .error e => .error e
    | .ok none => .ok none
    | .ok (some ev) =>
      match identifier ev with
      | some group_id => .ok (some group_id)
      | none => .ok none

/-- Model of `CommunityMetadata` from `services/community.rs`. -/
structure CommunityMetadata where
  geohash : String
  deriving Repr, DecidableEq

/-- Model of `CommunityService::get`: resolve the UUID, read the group metadata,
treat a 0-member group as absent, and fall back to the first 8 characters
of `dg` when `g` is missing.  Lookup errors and metadata-fetch errors both
yield `none`. -/
def communityServiceGet (rv : RelayView) (cache : Option String) : Option CommunityMetadata :=
  match find_group_by_uuid cache rv with
  | .error _ => none
  | .ok none => none
  | .ok (some group_id) =>
    match get_group_metadata rv group_id with
    | .error _ => none
    | .ok gm =>
      if gm.member_count = 0 then none
      else
        match gm.geohash with
        | some g => some ⟨g⟩
        | none =>
          match gm.display_geohash with
          | some dg => some ⟨⟨dg.data.take 8⟩⟩
          | none => none

/-- Model of `CommunityService::group_exists_without_geohash`: the group resolves,
its metadata is readable, it has at least one member and no `g` geohash.
Lookup and fetch errors yield `false`. -/
def group_exists_without_geohash (rv : RelayView) (cache : Option String) : Bool :=
  match find_group_by_uuid cache rv with
  | .error _ => false
  | .ok none => false
  | .ok (some group_id) =>
    match get_group_metadata rv group_id with
    | .error _ => false
    | .ok gm => decide (gm.member_count > 0) && gm.geohash.isNone

/-! ## Membership mutator (`services/relay.rs`) -/

/-- The kind-9000 put-user moderation event. -/
def putUserEvent (h p role : String) : NEvent :=
  ⟨9000, [["h", h], ["p", p, role]], 0⟩

/-- The kind-9007 create-group moderation event. -/
def createGroupEvent (h : String) : NEvent :=
  ⟨9007, [["h", h]], 0⟩

/-- The kind-9001 remove-user moderation event. -/
def removeUserEvent (h p : String) : NEvent :=
  ⟨9001, [["h", h], ["p", p]], 0⟩

/-- The kind-9002 edit-metadata moderation event published by
`create_group`, with the geohash, display geohash and UUID external id. -/
def metadataEvent (h nm g dg uuid : String) : NEvent :=
  ⟨9002, [["h", h], ["name", nm], ["about", "Location-based community"], ["picture", ""],
          ["private"], ["closed"], ["g", g], ["dg", dg], ["i", "peek:uuid:" ++ uuid]], 0⟩

/-- Model of `RelayService::add_group_member`: publish the kind-9000 put-user
event with role `admin` or `member`; a relay error whose message contains
`"duplicate:"` or `"already a member"` is classified as success
(`relayReply = none` models an accepted publish, `some msg` a rejection
with message `msg`).  Returns the outcome and the published event. -/
def add_group_member (group_id user_pubkey : String) (admin : Bool)
    (relayReply : Option String) : Except String Unit × NEvent :=
  let role := if admin then "admin" else "member"
  let ev := putUserEvent group_id user_pubkey role
  match relayReply with
  | none => (.ok (), ev)
  | some msg =>
    if strContains msg "duplicate:" || strContains msg "already a member" then (.ok (), ev)
    else (.error msg, ev)

/-- A latitude/longitude pair (`Location` in `services/relay.rs`). -/
structure Location where
  latitude : Frac
  longitude : Frac
  deriving Repr

/-- Per-creation oracle data of `create_group`: the random token from
`generate_random_group_id`, the relay service public key, the outcome of
`generate_display_location`, and the relay's reply to the add-member
publish. -/
structure CreateEnv where
  freshToken : String
  relayPubkey : String
  displayGeohash : Except Unit String
  addMemberReply : Option String

/-- Model of `RelayService::create_group`: if metadata for the fresh token is
already readable, only re-add the creator as `member`; otherwise publish,
in order, kind 9007 (create), kind 9000 (creator as `admin`), kind 9001
(revoke the relay key), kind 9000 via `add_group_member` with
`is_admin = true`, and kind 9002 (metadata).  Send failures of steps
1-3 and 5 are tolerated; `add_group_member`, display-location and
geohash-encoding failures abort.  Returns the group id outcome and the
list of moderation events published. -/
def create_group (rv : RelayView) (ce : CreateEnv) (community_id nm creator_pubkey : String)
    (loc : Location) : Except String String × List NEvent :=
  let group_id := ce.freshToken
  match get_group_metadata rv group_id with
  | .ok _ =>
    match add_group_member group_id creator_pubkey false ce.addMemberReply with
    | (.ok _, ev) => (.ok group_id, [ev])
    | (.error msg, ev) => (.error msg, [ev])
  | .error _ =>
    let e1 := createGroupEvent group_id
    let e2 := putUserEvent group_id creator_pubkey "admin"
    let e3 := removeUserEvent group_id ce.relayPubkey
    match add_group_member group_id creator_pubkey true ce.addMemberReply with
    | (.error msg, e4) => (.error msg, [e1, e2, e3, e4])
    | (.ok _, e4) =>
      match ce.displayGeohash with
      | .error _ => (.error "Failed to generate display location", [e1, e2, e3, e4])
      | .ok dg =>
        match encode loc.longitude loc.latitude 8 with
        | none => (.error "Failed to encode location", [e1, e2, e3, e4])
        | some g =>
          (.ok group_id, [e1, e2, e3, e4, metadataEvent group_id nm g dg community_id])

/-! ## Validation engine (`handlers/nostr_validation.rs`) -/

/-- Everything one location-validation request can observe: the relay
view, the UUID cache entry, the creation oracle, the relay's reply to the
join-path add-member publish, and the configured public relay URL. -/
structure ValidationEnv where
  rv : RelayView
  cache : Option String
  ce : CreateEnv
  joinAddReply : Option String
  public_relay_url : String

/-- Model of `CommunityService::get_or_create`: corrupted state aborts; an
existing valid community is returned with `is_new = false`; otherwise the
group is created and the request's own geohash returned with
`is_new = true`.  Also returns the moderation events published. -/
def get_or_create (env : ValidationEnv) (community_id : String) (loc : Location)
    (creator_pubkey : String) : Except String (CommunityMetadata × Bool) × List NEvent :=
  if group_exists_without_geohash env.rv env.cache then
    (.error ("Community " ++ community_id ++
      " exists but has no location geohash - this is a corrupted state that needs manual intervention"), [])
  else
    match communityServiceGet env.rv env.cache with
    | some existing => (.ok (existing, false), [])
    | none =>
      match create_group env.rv env.ce community_id
          ("Community " ++ ⟨community_id.data.take 8⟩) creator_pubkey loc with
      | (.error e, evs) => (.error e, evs)
      | (.ok _, evs) =>
        match encode loc.longitude loc.latitude 8 with
        | none => (.error "Failed to encode location", evs)
        | some g => (.ok (⟨g⟩, true), evs)

/-- Model of `LocationValidationResponse` (the constant `response_type` field,
always `"location_validation_response"`, is omitted). -/
structure LocationValidationResponse where
  success : Bool
  group_id : Option String
  relay_url : Option String
  is_admin : Option Bool
  is_member : Option Bool
  error : Option String
  error_code : Option String
  deriving Repr, DecidableEq

/-- Model of `process_location_validation`: UUID parse, get-or-create, geohash
test for existing communities, member addition on the join path, and
response construction — note the reply's `group_id` is
`format!("peek-{}", community_uuid)`.  Returns the response and all
moderation events published while handling the request. -/
def process_location_validation (env : ValidationEnv) (community_id : String)
    (loc : Location) (sender_pubkey : String) : LocationValidationResponse × List NEvent :=
  match parseUuid community_id with
  | none =>
    (⟨false, none, none, none, none, some "Invalid community ID", some "INVALID_ID"⟩, [])
  | some uu =>
    match get_or_create env uu loc sender_pubkey with
    | (.error e, evs) =>
      (⟨false, none, none, none, none, some ("Failed to get/create community: " ++ e),
        some "COMMUNITY_ERROR"⟩, evs)
    | (.ok (community, isNew), evs) =>
      if !isNew && !validate_geohash_location loc.latitude loc.longitude community.geohash then
        (⟨false, none, none, none, none, some "Location outside community area",
          some "LOCATION_INVALID"⟩, evs)
      else
        let group_id := "peek-" ++ uu
        if !isNew then
          match add_group_member group_id sender_pubkey false env.joinAddReply with
          | (.ok _, ev) =>
            (⟨true, some group_id, some env.public_relay_url, some isNew, some true,
              none, none⟩, evs ++ [ev])
          | (.error e, ev) =>
            (⟨false, none, none, none, none, some ("Failed to add user to group: " ++ e),
              some "GROUP_ADD_FAILED"⟩, evs ++ [ev])
        else
          (⟨true, some group_id, some env.public_relay_url, some isNew, some true,
            none, none⟩, evs)

/-- The preview reply tuple of `process_preview`, as a record. -/
structure PreviewResponse where
  success : Bool
  name : Option String
  picture : Option String
  about : Option String
  rules : Option (List String)
  member_count : Option Nat
  is_public : Option Bool
  is_open : Option Bool
  created_at : Option Nat
  error : Option String
  deriving Repr, DecidableEq

/-- Model of `process_preview`: parse the UUID, then fetch metadata directly for
the group id `format!("peek-{}", community_uuid)` — there is no
UUID-to-group resolution step — and reply with the metadata, or with an
error string when the parse or the fetch fails. -/
def process_preview (rv : RelayView) (community_id : String) : PreviewResponse :=
  match parseUuid community_id with
  | none =>
    ⟨false, none, none, none, none, none, none, none, none, some "Invalid community ID"⟩
  | some uu =>
    let group_id := "peek-" ++ uu
    match get_group_metadata rv group_id with
    | .ok m =>
      ⟨true, some m.name, m.picture, m.about, m.rules, some m.member_count,
       some m.is_public, some m.is_open, some m.created_at, none⟩
    | .error _ =>
      ⟨false, none, none, none, none, none, none, none, none,
       some "Failed to fetch community metadata"⟩

/-! ## Lemmas about the geohash encoder -/

/-- The encoding loop emits exactly as many characters as requested. -/
lemma encLoop_length (x y : Frac) (n : Nat) :
    ∀ (isLon : Bool) (bb : BBox), (encLoop x y n isLon bb).length = n := by
  induction n with
  | zero => intro _ _; rfl
  | succ n ih =>
    intro isLon bb
    unfold encLoop
    simp [ih]

/-- A successful encoding has the requested precision. -/
lemma encode_length (x y : Frac) (len : Nat) (s : String) (h : encode x y len = some s) :
    s.length = len := by
  unfold encode at h
  split at h
  · exact absurd h (by simp)
  · cases h
    simpa [String.length] using encLoop_length x y len true worldBBox

/-- Characterisation of `validate_geohash_location`, given the user's own
precision-8 cell `u`: the test succeeds exactly for an 8-character target
equal to `u` or having `u` among its eight neighbours. -/
lemma validate_geohash_location_iff (lat lon : Frac) (target u : String)
    (hu : encode lon lat 8 = some u) :
    validate_geohash_location lat lon target = true ↔
      (target.length = 8 ∧ (u = target ∨ u ∈ neighborList target)) := by
  by_cases hlen : target.length = 8
  · by_cases heq : u = target
    · simp [validate_geohash_location, hu, hlen, heq]
    · cases hnb : neighbors target with
      | none => simp [validate_geohash_location, hu, hlen, heq, neighborList, hnb]
      | some ns =>
        simp only [validate_geohash_location, hu, hlen, heq, neighborList, hnb,
          ne_eq, not_true_eq_false, if_false, ite_false, Bool.or_eq_true,
          decide_eq_true_eq, List.mem_cons, List.not_mem_nil, or_false,
          false_or, true_and]
        tauto
  · simp [validate_geohash_location, hlen]

/-! ## Claims C7 and C8 -/

/-- C7.  The cell-membership test requires the target cell to have length
exactly 8 (returning false otherwise), encodes the user's
latitude/longitude at precision 8 (`u` below), and returns true iff the
user's cell equals the target cell or is one of the target cell's eight
neighbour cells. -/
theorem c7_validate_geohash_spec (lat lon : Frac) (target u : String)
    (hu : encode lon lat 8 = some u) :
    (target.length ≠ 8 → validate_geohash_location lat lon target = false) ∧
    (validate_geohash_location lat lon target = true ↔
      (target.length = 8 ∧ (u = target ∨ u ∈ neighborList target))) := by
  refine ⟨?_, validate_geohash_location_iff lat lon target u hu⟩
  intro hlen
  cases hv : validate_geohash_location lat lon target
  · rfl
  · exact absurd ((validate_geohash_location_iff lat lon target u hu).mp hv).1 hlen

/-- The point (0, 0) as a `Frac` pair. -/
def zeroCoord : Frac := Frac.ofInt 0

/-- Witness for C7 at the point (0, 0), whose precision-8 cell is
`7zzzzzzz`. -/
theorem c7_witness :
    (("7zzzzzzz" : String).length ≠ 8 →
      validate_geohash_location zeroCoord zeroCoord "7zzzzzzz" = false) ∧
    (validate_geohash_location zeroCoord zeroCoord "7zzzzzzz" = true ↔
      (("7zzzzzzz" : String).length = 8 ∧
        ("7zzzzzzz" = "7zzzzzzz" ∨ "7zzzzzzz" ∈ neighborList "7zzzzzzz"))) :=
  c7_validate_geohash_spec zeroCoord zeroCoord "7zzzzzzz" "7zzzzzzz" (by decide)

/-- C8.  Every point that has a precision-8 encoding passes the
cell-membership test against that encoding. -/
theorem c8_own_cell_accepted (lat lon : Frac) (u : String)
    (hu : encode lon lat 8 = some u) :
    validate_geohash_location lat lon u = true := by
  rw [validate_geohash_location_iff lat lon u u hu]
  exact ⟨encode_length lon lat 8 u hu, Or.inl rfl⟩

/-- Witness for C8 at the point (0, 0). -/
theorem c8_witness : validate_geohash_location zeroCoord zeroCoord "7zzzzzzz" = true :=
  c8_own_cell_accepted zeroCoord zeroCoord "7zzzzzzz" (by decide)

/-! ## Lemmas about the embedded services -/

/-- A tag whose kind is not the single letter `g` leaves the parsed
geohash unchanged. -/
lemma applyTag_geohash_preserved (st : TagParseState) (t : List String)
    (h : t.head? ≠ some "g") : (applyTag st t).geohash = st.geohash := by
  cases hh : t.head? with
  | none => simp [applyTag, hh]
  | some k =>
    have hk : ¬(k = "g") := fun e => h (by rw [hh, e])
    simp only [applyTag, hh]
    rw [if_neg hk]
    split_ifs <;> first
      | rfl
      | (cases t[1]? <;> rfl)
      | (cases t[1]? with
          | none => rfl
          | some c => by_cases hc : c.length = 9 <;> simp [hc])

/-- A metadata event without any `g` tag parses to no geohash. -/
lemma foldl_applyTag_geohash (ts : List (List String)) :
    ∀ (st : TagParseState), (∀ t ∈ ts, t.head? ≠ some "g") →
      (ts.foldl applyTag st).geohash = st.geohash := by
  induction ts with
  | nil => intro st _; rfl
  | cons t ts ih =>
    intro st h
    have ht := h t (by simp)
    have hrest : ∀ x ∈ ts, x.head? ≠ some "g" := fun x hx => h x (by simp [hx])
    simp only [List.foldl_cons]
    rw [ih (applyTag st t) hrest, applyTag_geohash_preserved st t ht]

/-- On the fresh-token path with an accepted add-member publish, a
working display-location generator and an encodable location,
`create_group` publishes the five moderation events in protocol order and
returns the fresh random token as the group id. -/
lemma create_group_events (rv : RelayView) (ce : CreateEnv) (cid nm creator : String)
    (loc : Location) (dg g : String)
    (hfresh : rv.metaQuery ce.freshToken = .ok none)
    (hadd : ce.addMemberReply = none)
    (hdg : ce.displayGeohash = .ok dg)
    (hg : encode loc.longitude loc.latitude 8 = some g) :
    create_group rv ce cid nm creator loc =
      (.ok ce.freshToken,
       [createGroupEvent ce.freshToken,
        putUserEvent ce.freshToken creator "admin",
        removeUserEvent ce.freshToken ce.relayPubkey,
        putUserEvent ce.freshToken creator "admin",
        metadataEvent ce.freshToken nm g dg cid]) := by
  simp [create_group, get_group_metadata, add_group_member, hfresh, hadd, hdg, hg]

/-- The full creation path of `process_location_validation`: when the
corrupted-state check is clear, no valid community is found, and the
creation oracle succeeds, the reply is a success carrying
`group_id = "peek-" ++ uuid`, `is_admin = is_member = true`, while the
five moderation events are published under the fresh random token. -/
lemma creation_path (env : ValidationEnv) (cid : String) (loc : Location)
    (sender uu dg g : String)
    (hparse : parseUuid cid = some uu)
    (hcor : group_exists_without_geohash env.rv env.cache = false)
    (hget : communityServiceGet env.rv env.cache = none)
    (hfresh : env.rv.metaQuery env.ce.freshToken = .ok none)
    (hadd : env.ce.addMemberReply = none)
    (hdg : env.ce.displayGeohash = .ok dg)
    (hg : encode loc.longitude loc.latitude 8 = some g) :
    process_location_validation env cid loc sender =
      (⟨true, some ("peek-" ++ uu), some env.public_relay_url, some true, some true,
        none, none⟩,
       [createGroupEvent env.ce.freshToken,
        putUserEvent env.ce.freshToken sender "admin",
        removeUserEvent env.ce.freshToken env.ce.relayPubkey,
        putUserEvent env.ce.freshToken sender "admin",
        metadataEvent env.ce.freshToken ("Community " ++ ⟨uu.data.take 8⟩) g dg uu]) := by
  have hc := create_group_events env.rv env.ce uu ("Community " ++ ⟨uu.data.take 8⟩)
    sender loc dg g hfresh hadd hdg hg
  simp [process_location_validation, hparse, get_or_create, hcor, hget, hc, hg]

/-! ## Concrete relay states used by witnesses and counterexamples -/

/-- A sample community UUID. -/
def uuidA : String := "11111111-2222-3333-4444-555555555555"

/-- A sample output of `generate_random_group_id`. -/
def tokenA : String := "peek-abcdefghij"

/-- A second sample random group id. -/
def tokenB : String := "peek-zzzzzzzzzz"

/-- Coordinates (37.7749, -122.4194), inside geohash cell `9q8yyk8y`. -/
def sfLocation : Location :=
  ⟨⟨377749, 10000, by decide⟩, ⟨-1224194, 10000, by decide⟩⟩

/-- Coordinates (37.7800, -122.4100), beyond the neighbour region of `9q8yyk8y`
(its own cell is `9q8yymxu`). -/
def distantLocation : Location :=
  ⟨⟨377800, 10000, by decide⟩, ⟨-1224100, 10000, by decide⟩⟩

/-- Creation oracle drawing `tokenA`, with every publish accepted. -/
def ceA : CreateEnv := ⟨tokenA, "relaypub", .ok "9q8yyk8yy", none⟩

/-- Creation oracle drawing `tokenB`, with every publish accepted. -/
def ceB : CreateEnv := ⟨tokenB, "relaypub", .ok "9q8yyk8yy", none⟩

/-- A relay holding nothing. -/
def emptyRelay : RelayView := ⟨.ok none, fun _ => .ok none, fun _ => .ok none⟩

/-- Environment of a first scan on an unknown UUID. -/
def freshEnv : ValidationEnv := ⟨emptyRelay, none, ceA, none, "wss://peek.example"⟩

/-- The kind-39000 event answering the `i = peek:uuid:<uuidA>` lookup,
whose `d` identifier is `tokenA`. -/
def boundEvent : NEvent := ⟨39000, [["d", tokenA]], 100⟩

/-- The kind-39000 metadata event of group `tokenA`. -/
def metaEventA : NEvent :=
  ⟨39000, [["d", tokenA], ["name", "Community 11111111"], ["private"], ["closed"],
           ["g", "9q8yyk8y"], ["dg", "9q8yyk8yy"], ["i", "peek:uuid:" ++ uuidA]], 100⟩

/-- The kind-39002 members event of group `tokenA`, one member. -/
def membersEventA : NEvent := ⟨39002, [["d", tokenA], ["p", "alicepub"]], 100⟩

/-- A relay on which `uuidA` is bound to `tokenA`, with valid metadata
and one member. -/
def boundRelay : RelayView :=
  ⟨.ok (some boundEvent),
   fun gid => if gid = tokenA then .ok (some metaEventA) else .ok none,
   fun gid => if gid = tokenA then .ok (some membersEventA) else .ok none⟩

/-- Environment of a scan against the existing community `tokenA`. -/
def existingEnv : ValidationEnv := ⟨boundRelay, none, ceA, none, "wss://peek.example"⟩

/-- The metadata of `tokenA` as `get_group_metadata` parses it from
`boundRelay`. -/
def gmA : GroupMetadata :=
  ⟨"Community 11111111", none, none, none, 1, false, false, 100,
   some "9q8yyk8y", some "9q8yyk8yy"⟩

/-- A relay that locates `tokenA` for `uuidA` but fails every metadata
fetch for `tokenA`. -/
def metaFailRelay : RelayView :=
  ⟨.ok (some boundEvent),
   fun gid => if gid = tokenA then .error () else .ok none,
   fun _ => .ok none⟩

/-- Environment where the metadata fetch for the located group fails. -/
def metaFailEnv : ValidationEnv := ⟨metaFailRelay, none, ceB, none, "wss://peek.example"⟩

/-- A kind-39000 metadata event for `tokenA` with no `g` tag. -/
def metaNoGeohash : NEvent := ⟨39000, [["d", tokenA], ["name", "Community 11111111"]], 100⟩

/-- A relay in the corrupted state: `uuidA` bound to `tokenA`, one
member, no `g` tag. -/
def corruptRelay : RelayView :=
  ⟨.ok (some boundEvent),
   fun gid => if gid = tokenA then .ok (some metaNoGeohash) else .ok none,
   fun gid => if gid = tokenA then .ok (some membersEventA) else .ok none⟩

/-- Environment over the corrupted relay state. -/
def corruptEnv : ValidationEnv := ⟨corruptRelay, none, ceA, none, "wss://peek.example"⟩

/-- A relay with valid metadata for `tokenA` whose kind-39002 fetch
always fails. -/
def noMembersRelay : RelayView :=
  ⟨.ok (some boundEvent),
   fun gid => if gid = tokenA then .ok (some metaEventA) else .ok none,
   fun _ => .error ()⟩

/-- Environment where the members fetch fails for every group. -/
def noMembersEnv : ValidationEnv := ⟨noMembersRelay, none, ceB, none, "wss://peek.example"⟩

/-! ## Claims C1 to C6, C9 and C10 -/

/-- C1.  Behaviour of the code at the failing input: a creating
location-validation request is answered with success and
`is_admin = is_member = true` as claimed, but its `group_id` is
`"peek-" ++ uuid`, which differs from the id `tokenA` under which the
create-group protocol registered the group on the relay (the `h` tag of
the first published moderation event, kind 9007). -/
theorem c1_code_behavior :
    (process_location_validation freshEnv uuidA sfLocation "alicepub").1.success = true ∧
    (process_location_validation freshEnv uuidA sfLocation "alicepub").1.is_admin = some true ∧
    (process_location_validation freshEnv uuidA sfLocation "alicepub").1.is_member = some true ∧
    (process_location_validation freshEnv uuidA sfLocation "alicepub").1.group_id =
      some ("peek-" ++ uuidA) ∧
    (process_location_validation freshEnv uuidA sfLocation "alicepub").2.head? =
      some (createGroupEvent tokenA) ∧
    "peek-" ++ uuidA ≠ tokenA := by
  refine ⟨?_, ?_, ?_, ?_, ?_, ?_⟩ <;> decide

/-- C2.  Behaviour of the code at the failing input: on `boundRelay` the
UUID `uuidA` is bound to group `tokenA` (the UUID lookup finds it) and
that group's metadata is readable, yet the preview reply is a failure
with an error string, because `process_preview` never resolves the UUID
and instead fetches metadata for the id `"peek-" ++ uuidA`. -/
theorem c2_code_behavior :
    find_group_by_uuid none boundRelay = .ok (some tokenA) ∧
    get_group_metadata boundRelay tokenA = .ok gmA ∧
    (process_preview boundRelay uuidA).success = false ∧
    (process_preview boundRelay uuidA).error.isSome = true ∧
    boundRelay.metaQuery ("peek-" ++ uuidA) = .ok none := by
  refine ⟨?_, ?_, ?_, ?_, ?_⟩ <;> decide

/-- C3, counterexample.  The metadata fetch for the group located for
`uuidA` fails, yet the reply is a success with no error code — not the
`{success=false, error_code="COMMUNITY_ERROR"}` reply the claim
requires. -/
theorem c3_counterexample :
    find_group_by_uuid none metaFailRelay = .ok (some tokenA) ∧
    metaFailRelay.metaQuery tokenA = .error () ∧
    (process_location_validation metaFailEnv uuidA sfLocation "carolpub").1.success = true ∧
    (process_location_validation metaFailEnv uuidA sfLocation "carolpub").1.error_code =
      none := by
  refine ⟨?_, ?_, ?_, ?_⟩ <;> decide

/-- C3, amended.  A failed or timed-out metadata fetch for an
already-located group id is treated exactly like "group not found":
`CommunityService::get` returns none, the corrupted-state check is clear,
and dispatch proceeds to the creation path, replying success with no
error code (no `COMMUNITY_ERROR`). -/
theorem c3_meta_fetch_failure_not_found (env : ValidationEnv) (cid : String)
    (loc : Location) (sender uu H dg g : String)
    (hparse : parseUuid cid = some uu)
    (hfind : find_group_by_uuid env.cache env.rv = .ok (some H))
    (hmeta : env.rv.metaQuery H = .error ())
    (hfresh : env.rv.metaQuery env.ce.freshToken = .ok none)
    (hadd : env.ce.addMemberReply = none)
    (hdg : env.ce.displayGeohash = .ok dg)
    (hg : encode loc.longitude loc.latitude 8 = some g) :
    communityServiceGet env.rv env.cache = none ∧
    group_exists_without_geohash env.rv env.cache = false ∧
    (process_location_validation env cid loc sender).1.success = true ∧
    (process_location_validation env cid loc sender).1.error_code = none := by
  have hget : communityServiceGet env.rv env.cache = none := by
    simp [communityServiceGet, hfind, get_group_metadata, hmeta]
  have hcor : group_exists_without_geohash env.rv env.cache = false := by
    simp [group_exists_without_geohash, hfind, get_group_metadata, hmeta]
  have h := creation_path env cid loc sender uu dg g hparse hcor hget hfresh hadd hdg hg
  rw [h]
  exact ⟨hget, hcor, rfl, rfl⟩

/-- Witness for the amended C3 on `metaFailEnv`. -/
theorem c3_witness :
    communityServiceGet metaFailEnv.rv metaFailEnv.cache = none ∧
    group_exists_without_geohash metaFailEnv.rv metaFailEnv.cache = false ∧
    (process_location_validation metaFailEnv uuidA sfLocation "carolpub").1.success = true ∧
    (process_location_validation metaFailEnv uuidA sfLocation "carolpub").1.error_code =
      none :=
  c3_meta_fetch_failure_not_found metaFailEnv uuidA sfLocation "carolpub" uuidA tokenA
    "9q8yyk8yy" "9q8yyk8y" (by decide) (by decide) (by decide) (by decide) (by decide)
    (by decide) (by decide)

/-- C4, counterexample.  In a concrete run of the create-group protocol,
the publish between the kind-9001 revocation and the kind-9002 metadata
event carries the creator's public key with role `admin`, not `member`. -/
theorem c4_counterexample :
    (create_group emptyRelay ceA uuidA "Community 11111111" "alicepub" sfLocation).2[3]? =
      some (putUserEvent tokenA "alicepub" "admin") ∧
    putUserEvent tokenA "alicepub" "admin" ≠ putUserEvent tokenA "alicepub" "member" := by
  refine ⟨?_, ?_⟩ <;> decide

/-- C4, amended.  After the kind-9001 revocation of the service key, the
next publish of the create-group protocol is a kind-9000 put-user event
whose `p` tag carries the creator's public key with role `admin`
(`add_group_member` is called with `is_admin = true`), before the
kind-9002 metadata event is published. -/
theorem c4_create_publish_sequence (rv : RelayView) (ce : CreateEnv)
    (cid nm creator : String) (loc : Location) (dg g : String)
    (hfresh : rv.metaQuery ce.freshToken = .ok none)
    (hadd : ce.addMemberReply = none)
    (hdg : ce.displayGeohash = .ok dg)
    (hg : encode loc.longitude loc.latitude 8 = some g) :
    (create_group rv ce cid nm creator loc).2 =
      [createGroupEvent ce.freshToken,
       putUserEvent ce.freshToken creator "admin",
       removeUserEvent ce.freshToken ce.relayPubkey,
       putUserEvent ce.freshToken creator "admin",
       metadataEvent ce.freshToken nm g dg cid] := by
  rw [create_group_events rv ce cid nm creator loc dg g hfresh hadd hdg hg]

/-- Witness for the amended C4 on a concrete creation run. -/
theorem c4_witness :
    (create_group emptyRelay ceA uuidA "Community 11111111" "alicepub" sfLocation).2 =
      [createGroupEvent tokenA,
       putUserEvent tokenA "alicepub" "admin",
       removeUserEvent tokenA "relaypub",
       putUserEvent tokenA "alicepub" "admin",
       metadataEvent tokenA "Community 11111111" "9q8yyk8y" "9q8yyk8yy" uuidA] :=
  c4_create_publish_sequence emptyRelay ceA uuidA "Community 11111111" "alicepub"
    sfLocation "9q8yyk8yy" "9q8yyk8y" (by decide) (by decide) (by decide) (by decide)

/-- C5.  When the UUID resolves to a group whose kind-39000 metadata has
no `g` tag while its kind-39002 members event has at least one `p` tag,
the reply is `{success = false, error_code = "COMMUNITY_ERROR"}` and no
moderation event is published. -/
theorem c5_corrupted_state_community_error (env : ValidationEnv) (cid : String)
    (loc : Location) (sender uu H : String) (mev wev : NEvent)
    (hparse : parseUuid cid = some uu)
    (hfind : find_group_by_uuid env.cache env.rv = .ok (some H))
    (hmeta : env.rv.metaQuery H = .ok (some mev))
    (hnog : ∀ t ∈ mev.tags, t.head? ≠ some "g")
    (hmem : env.rv.membersQuery H = .ok (some wev))
    (hcount : countPTags wev.tags ≠ 0) :
    process_location_validation env cid loc sender =
      (⟨false, none, none, none, none,
        some ("Failed to get/create community: " ++ ("Community " ++ uu ++
          " exists but has no location geohash - this is a corrupted state that needs manual intervention")),
        some "COMMUNITY_ERROR"⟩, []) := by
  have hfold : ((mev.tags.foldl applyTag {}).geohash) = none :=
    foldl_applyTag_geohash mev.tags {} hnog
  have hcor : group_exists_without_geohash env.rv env.cache = true := by
    simp only [group_exists_without_geohash, hfind, get_group_metadata, hmeta,
      get_group_member_count, hmem]
    simp [hfold, Except.toOption, Nat.pos_of_ne_zero hcount]
  simp [process_location_validation, hparse, get_or_create, hcor]

/-- Witness for C5 on the corrupted relay state `corruptRelay`. -/
theorem c5_witness :
    process_location_validation corruptEnv uuidA sfLocation "davepub" =
      (⟨false, none, none, none, none,
        some ("Failed to get/create community: " ++ ("Community " ++ uuidA ++
          " exists but has no location geohash - this is a corrupted state that needs manual intervention")),
        some "COMMUNITY_ERROR"⟩, []) :=
  c5_corrupted_state_community_error corruptEnv uuidA sfLocation "davepub" uuidA tokenA
    metaNoGeohash membersEventA (by decide) (by decide) (by decide) (by decide)
    (by decide) (by decide)

/-- C6.  Against an existing community whose metadata carries geohash
`g8`, a request whose location encodes to a precision-8 cell that is
neither `g8` nor one of its eight neighbours is answered with
`{success = false, error_code = "LOCATION_INVALID"}` and nothing is
published — in particular no add-member event for the sender. -/
theorem c6_location_invalid_no_publish (env : ValidationEnv) (cid : String)
    (loc : Location) (sender uu H g8 u : String) (gm : GroupMetadata)
    (hparse : parseUuid cid = some uu)
    (hfind : find_group_by_uuid env.cache env.rv = .ok (some H))
    (hgm : get_group_metadata env.rv H = .ok gm)
    (hcount : gm.member_count ≠ 0)
    (hgeo : gm.geohash = some g8)
    (hu : encode loc.longitude loc.latitude 8 = some u)
    (hne : u ≠ g8)
    (hnb : u ∉ neighborList g8) :
    process_location_validation env cid loc sender =
      (⟨false, none, none, none, none, some "Location outside community area",
        some "LOCATION_INVALID"⟩, []) := by
  have hval : validate_geohash_location loc.latitude loc.longitude g8 = false := by
    cases hv : validate_geohash_location loc.latitude loc.longitude g8 with
    | false => rfl
    | true =>
      rcases (validate_geohash_location_iff loc.latitude loc.longitude g8 u hu).mp hv
        with ⟨-, h | h⟩
      · exact absurd h hne
      · exact absurd h hnb
  have hget : communityServiceGet env.rv env.cache = some ⟨g8⟩ := by
    simp [communityServiceGet, hfind, hgm, hcount, hgeo]
  have hcor : group_exists_without_geohash env.rv env.cache = false := by
    simp [group_exists_without_geohash, hfind, hgm, hgeo]
  simp [process_location_validation, hparse, get_or_create, hcor, hget, hval]

/-- Witness for C6: a distant second scan against `boundRelay` is
rejected with `LOCATION_INVALID` and publishes nothing. -/
theorem c6_witness :
    process_location_validation existingEnv uuidA distantLocation "bobpub" =
      (⟨false, none, none, none, none, some "Location outside community area",
        some "LOCATION_INVALID"⟩, []) :=
  c6_location_invalid_no_publish existingEnv uuidA distantLocation "bobpub" uuidA tokenA
    "9q8yyk8y" "9q8yymxu" gmA (by decide) (by decide) (by decide) (by decide) (by decide)
    (by decide) (by decide) (by decide)

/-- C9, counterexample.  A relay rejection whose message is exactly
`"duplicate"` does contain the substring `"duplicate"`, yet
`add_group_member` propagates it as an error: the code only recognises
`"duplicate:"` (with a colon) and `"already a member"`. -/
theorem c9_counterexample :
    strContains "duplicate" "duplicate" = true ∧
    (add_group_member tokenA "bobpub" false (some "duplicate")).1 = .error "duplicate" := by
  refine ⟨?_, ?_⟩ <;> decide

/-- C9, amended.  When the relay's rejection message contains
`"duplicate:"` (with the colon) or `"already a member"`, the repeated
add-member call returns success and is observationally equal — in result
and in the event it publishes — to the first, accepted call. -/
theorem c9_duplicate_reply_is_success (group_id pub : String) (admin : Bool) (msg : String)
    (h : strContains msg "duplicate:" = true ∨ strContains msg "already a member" = true) :
    (add_group_member group_id pub admin (some msg)).1 = .ok () ∧
    add_group_member group_id pub admin (some msg) =
      add_group_member group_id pub admin none := by
  rcases h with h | h <;> simp [add_group_member, h]

/-- Witness for the amended C9 on a NIP-29-style rejection message. -/
theorem c9_witness :
    (add_group_member tokenA "bobpub" false
        (some "duplicate: user is already a member of the group")).1 = .ok () ∧
    add_group_member tokenA "bobpub" false
        (some "duplicate: user is already a member of the group") =
      add_group_member tokenA "bobpub" false none :=
  c9_duplicate_reply_is_success tokenA "bobpub" false
    "duplicate: user is already a member of the group" (Or.inl (by decide))

/-- C10.  When the kind-39002 members fetch fails (or the event is
absent), the metadata read reports zero members; a zero-member group is
treated as new, so the next validation request runs the create-group
protocol (the kind-9007 event is published under a fresh token) and its
sender is answered with `is_admin = true`, although a kind-39000
metadata event for the group already exists. -/
theorem c10_missing_members_recreates (env : ValidationEnv) (cid : String)
    (loc : Location) (sender uu H dg g : String) (mev : NEvent)
    (hparse : parseUuid cid = some uu)
    (hfind : find_group_by_uuid env.cache env.rv = .ok (some H))
    (hmeta : env.rv.metaQuery H = .ok (some mev))
    (hmem : env.rv.membersQuery H = .error () ∨ env.rv.membersQuery H = .ok none)
    (hfresh : env.rv.metaQuery env.ce.freshToken = .ok none)
    (hadd : env.ce.addMemberReply = none)
    (hdg : env.ce.displayGeohash = .ok dg)
    (hg : encode loc.longitude loc.latitude 8 = some g) :
    (∃ gm, get_group_metadata env.rv H = .ok gm ∧ gm.member_count = 0) ∧
    process_location_validation env cid loc sender =
      (⟨true, some ("peek-" ++ uu), some env.public_relay_url, some true, some true,
        none, none⟩,
       [createGroupEvent env.ce.freshToken,
        putUserEvent env.ce.freshToken sender "admin",
        removeUserEvent env.ce.freshToken env.ce.relayPubkey,
        putUserEvent env.ce.freshToken sender "admin",
        metadataEvent env.ce.freshToken ("Community " ++ ⟨uu.data.take 8⟩) g dg uu]) := by
  have hcnt : (get_group_member_count env.rv H).toOption.getD 0 = 0 := by
    rcases hmem with h | h <;> simp [get_group_member_count, h, Except.toOption]
  have hgm : get_group_metadata env.rv H =
      .ok ⟨(mev.tags.foldl applyTag {}).name, (mev.tags.foldl applyTag {}).picture,
        (mev.tags.foldl applyTag {}).about, none, 0,
        (mev.tags.foldl applyTag {}).is_public, (mev.tags.foldl applyTag {}).is_open,
        mev.created_at, (mev.tags.foldl applyTag {}).geohash,
        (mev.tags.foldl applyTag {}).display_geohash⟩ := by
    simp [get_group_metadata, hmeta, hcnt]
  have hget : communityServiceGet env.rv env.cache = none := by
    simp [communityServiceGet, hfind, hgm]
  have hcor : group_exists_without_geohash env.rv env.cache = false := by
    simp [group_exists_without_geohash, hfind, hgm]
  exact ⟨⟨_, hgm, rfl⟩,
    creation_path env cid loc sender uu dg g hparse hcor hget hfresh hadd hdg hg⟩

/-- Witness for C10 on `noMembersRelay`, whose members fetch always
fails while the kind-39000 metadata of `tokenA` exists. -/
theorem c10_witness :
    (∃ gm, get_group_metadata noMembersEnv.rv tokenA = .ok gm ∧ gm.member_count = 0) ∧
    process_location_validation noMembersEnv uuidA sfLocation "erinpub" =
      (⟨true, some ("peek-" ++ uuidA), some noMembersEnv.public_relay_url, some true,
        some true, none, none⟩,
       [createGroupEvent noMembersEnv.ce.freshToken,
        putUserEvent noMembersEnv.ce.freshToken "erinpub" "admin",
        removeUserEvent noMembersEnv.ce.freshToken noMembersEnv.ce.relayPubkey,
        putUserEvent noMembersEnv.ce.freshToken "erinpub" "admin",
        metadataEvent noMembersEnv.ce.freshToken ("Community " ++ ⟨uuidA.data.take 8⟩)
          "9q8yyk8y" "9q8yyk8yy" uuidA]) :=
  c10_missing_members_recreates noMembersEnv uuidA sfLocation "erinpub" uuidA tokenA
    "9q8yyk8yy" "9q8yyk8y" metaEventA (by decide) (by decide) (by decide)
    (Or.inl (by decide)) (by decide) (by decide) (by decide) (by decide)

end Peek
